import Mathlib

/-
Verification development for court_bot (src/court_booker.py).

The embedding models the core of the program: the clock/waiter
(wait_until), the single booking attempt (attempt_booking) driven against
an abstract page environment, and the retry loop of main. Machine-level
details (a live browser page) are abstracted into a PageEnv record of
element-availability facts; the control flow, the label strings and the
returned values are translated line by line from the source.
-/

namespace CourtBooker

/-- DEV_MODE flag as shipped in the source (src/court_booker.py line 10). -/
def DEV_MODE : Bool := true

/-- Zero-padded two-digit rendering of a number, as strftime uses for
minutes and for the %m, %d fields. -/
def pad2 (n : Nat) : String :=
  if n < 10 then "0" ++ toString n else toString n

/-- Full month name as produced by strftime %B. -/
def monthName : Nat → String
  | 1 => "January"
  | 2 => "February"
  | 3 => "March"
  | 4 => "April"
  | 5 => "May"
  | 6 => "June"
  | 7 => "July"
  | 8 => "August"
  | 9 => "September"
  | 10 => "October"
  | 11 => "November"
  | 12 => "December"
  | _ => ""

/-- Full weekday name as produced by strftime %A, indexed 0 = Sunday. -/
def weekdayName : Nat → String
  | 0 => "Sunday"
  | 1 => "Monday"
  | 2 => "Tuesday"
  | 3 => "Wednesday"
  | 4 => "Thursday"
  | 5 => "Friday"
  | 6 => "Saturday"
  | _ => ""

/-- Month offset table of the Sakamoto weekday algorithm (month 1..12). -/
def sakamotoOffset : Nat → Nat
  | 1 => 0
  | 2 => 3
  | 3 => 2
  | 4 => 5
  | 5 => 0
  | 6 => 3
  | 7 => 5
  | 8 => 1
  | 9 => 4
  | 10 => 6
  | 11 => 2
  | 12 => 4
  | _ => 0

/-- Day of week of a Gregorian date, 0 = Sunday; models the weekday that
the datetime library reports for the date, which strftime %A renders. -/
def dayOfWeek (y m d : Nat) : Nat :=
  let y := if m < 3 then y - 1 else y
  (y + y / 4 + y / 400 + sakamotoOffset m + d - y / 100) % 7

/-- Booking target as entered by the user: a calendar date and a
24-hour clock time (the datetime object booking_dt of the source). -/
structure BookingDT where
  year : Nat
  month : Nat
  day : Nat
  hour : Nat
  minute : Nat
  deriving DecidableEq

/-- Date string in MM/DD/YYYY form, strftime format m/d/Y
(src/court_booker.py line 109). -/
def slashDateStr (dt : BookingDT) : String :=
  pad2 dt.month ++ "/" ++ pad2 dt.day ++ "/" ++ toString dt.year

/-- Full date label, strftime format A, B day-without-padding, Y
(src/court_booker.py lines 110-113): full weekday name, comma, full month
name, day with no leading zero, comma, year. -/
def fullDateStr (dt : BookingDT) : String :=
  weekdayName (dayOfWeek dt.year dt.month dt.day) ++ ", " ++
    monthName dt.month ++ " " ++ toString dt.day ++ ", " ++ toString dt.year

/-- Slot time label, strftime format I-without-padding:M p
(src/court_booker.py lines 115-118): 12-hour clock hour with no leading
zero, colon, zero-padded minutes, space, AM or PM. -/
def timeStr (dt : BookingDT) : String :=
  let h12 := if dt.hour % 12 = 0 then 12 else dt.hour % 12
  toString h12 ++ ":" ++ pad2 dt.minute ++ " " ++
    (if dt.hour < 12 then "AM" else "PM")

/-- CSS selector the locator passes to query the calendar date cell
(src/court_booker.py line 130). -/
def dateLinkSelector (label : String) : String :=
  "a.k-link[title=\"" ++ label ++ "\"]"

/-- Selector the locator passes to query the slot button
(src/court_booker.py line 139). -/
def slotButtonSelector (label : String) : String :=
  "button:has-text(\"" ++ label ++ "\")"

/-- Abstract state of the remote page during one attempt: which elements
exist and which bounded waits succeed within their timeouts. -/
structure PageEnv where
  hasCalendarToggle : Bool
  hasDateLink : Bool
  hasSlotButton : Bool
  modalAppears : Bool
  hasReservationTypeInput : Bool
  hasDropdownButton : Bool
  dropdownOptionsAppear : Bool
  numOptions : Nat
  hasDurationDropdown : Bool
  hasFirstDurationOption : Bool
  hasSaveButton : Bool
  modalDetaches : Bool
  deriving DecidableEq

/-- Observable events of one attempt, in program order: page queries,
clicks, and the console messages the source prints. -/
inductive Ev where
  | lookingForSlot (dateS timeS : String)
  | clickToggle
  | errToggleMissing
  | querySelector (sel : String)
  | clickDateLink
  | errDateNotFound (label : String)
  | slotNotAvailable (timeS : String)
  | clickSlot (timeS : String)
  | waitForModal
  | errReservationInputMissing
  | clickDropdownButton
  | errDropdownOptionsTimeout
  | devFoundOptions (n : Nat)
  | clickFirstOption
  | errNoOptions
  | fallbackSelectOption (sel value : String)
  | clickDurationDropdown
  | clickFirstDurationOption
  | warnDurationOptionsMissing
  | warnDurationMissing
  | errSaveButtonMissing
  | clickSave
  | submittedForm
  | modalClosedConfirmed
  | modalDidNotClose
  deriving DecidableEq

/-- Outcome of one call of attempt_booking: either the Python function
returns a Bool, or an exception escapes it (crashed). -/
inductive AttemptOutcome where
  | crashed
  | result (b : Bool)
  deriving DecidableEq

/-- Result of one sub-phase of the modal form: the attempt crashes on an
escaped exception, returns False, or continues with the given trace. -/
inductive PhaseResult where
  | crash (evs : List Ev)
  | fail (evs : List Ev)
  | cont (evs : List Ev)
  deriving DecidableEq

/-- Reservation-type phase of the modal form (src/court_booker.py lines
160-182). The evaluate_handle call on lines 160-162 always yields a
JSHandle object, and a JSHandle is truthy in Python even when it wraps
null, so the branch at line 163 is taken whether or not button.k-select
exists. When the button exists, the code opens the list, waits for the
options, and clicks the first one, returning False when the list never
appears or is empty. When the button is absent, the click on line 164 is
performed on a handle wrapping null and raises; the exception is not
caught, so the attempt crashes, and the select_option fallback of lines
180-182 is dead code that never runs. -/
def reservationTypePhase (env : PageEnv) : PhaseResult :=
  if env.hasDropdownButton then
    if !env.dropdownOptionsAppear then
      .fail [.clickDropdownButton, .errDropdownOptionsTimeout]
    else if env.numOptions = 0 then
      .fail [.clickDropdownButton, .devFoundOptions 0, .errNoOptions]
    else
      .cont [.clickDropdownButton, .devFoundOptions env.numOptions,
             .clickFirstOption]
  else
    .crash [.clickDropdownButton]

/-- Duration phase (src/court_booker.py lines 187-197): click the Duration
dropdown and its first option when both exist; absence of either is only
warned about, never a failure. -/
def durationPhase (env : PageEnv) : List Ev :=
  if env.hasDurationDropdown then
    if env.hasFirstDurationOption then
      [.clickDurationDropdown, .clickFirstDurationOption]
    else
      [.clickDurationDropdown, .warnDurationOptionsMissing]
  else
    [.warnDurationMissing]

/-- Save phase (src/court_booker.py lines 200-215): fail with False when
the save button is missing; otherwise click it, report submission, and
wait for the modal to detach, printing a confirmed message when it does
and an uncertain message when it does not; either way return True. -/
def savePhase (env : PageEnv) : AttemptOutcome × List Ev :=
  if !env.hasSaveButton then
    (.result false, [.errSaveButtonMissing])
  else if env.modalDetaches then
    (.result true, [.clickSave, .submittedForm, .modalClosedConfirmed])
  else
    (.result true, [.clickSave, .submittedForm, .modalDidNotClose])

/-- One booking attempt (src/court_booker.py lines 108-215), translated
branch by branch. The unguarded wait for the booking modal on line 148 has
no try/except around it, so a timeout there escapes the function: that
branch is modelled as crashed, while every guarded missing-element branch
returns False and the save phase decides the rest. -/
def attempt_booking (env : PageEnv) (dt : BookingDT) : AttemptOutcome × List Ev :=
  let fS := fullDateStr dt
  let tS := timeStr dt
  let log0 := [Ev.lookingForSlot (slashDateStr dt) tS]
  if !env.hasCalendarToggle then
    (.result false, log0 ++ [.errToggleMissing])
  else
    let log1 := log0 ++ [.clickToggle, .querySelector (dateLinkSelector fS)]
    if !env.hasDateLink then
      (.result false, log1 ++ [.errDateNotFound fS])
    else
      let log2 := log1 ++ [.clickDateLink, .querySelector (slotButtonSelector tS)]
      if !env.hasSlotButton then
        (.result false, log2 ++ [.slotNotAvailable tS])
      else
        let log3 := log2 ++ [.clickSlot tS, .waitForModal]
        if !env.modalAppears then
          (.crashed, log3)
        else if !env.hasReservationTypeInput then
          (.result false, log3 ++ [.errReservationInputMissing])
        else
          match reservationTypePhase env with
          | .crash evs => (.crashed, log3 ++ evs)
          | .fail evs => (.result false, log3 ++ evs)
          | .cont evs =>
            let log4 := log3 ++ evs ++ durationPhase env
            match savePhase env with
            | (o, evs2) => (o, log4 ++ evs2)

/-- Retry budget of the booking loop (src/court_booker.py line 247). -/
def max_retries : Nat := 24

/-- Delay in seconds slept after a failed attempt
(src/court_booker.py line 254). -/
def retryDelaySeconds : Nat := 5

/-- Booking loop of main (src/court_booker.py lines 247-254), recursion on
the remaining budget max_retries - retries. Attempt i runs next; a True
result ends the loop at once with no further sleep, a False result counts
one attempt and one 5-second sleep and continues, and an escaped exception
aborts the whole program (error). Returns (success, attempts performed,
sleeps performed). -/
def loopAux (outcome : Nat → AttemptOutcome) : Nat → Nat → Except Unit (Bool × Nat × Nat)
  | 0, _ => .ok (false, 0, 0)
  | fuel + 1, i =>
    match outcome i with
    | .crashed => .error ()
    | .result true => .ok (true, 1, 0)
    | .result false =>
      match loopAux outcome fuel (i + 1) with
      | .error e => .error e
      | .ok (s, a, d) => .ok (s, a + 1, d + 1)

/-- Booking loop entry: start at attempt 0 with the full budget. -/
def runBookingLoop (outcome : Nat → AttemptOutcome) (budget : Nat) :
    Except Unit (Bool × Nat × Nat) :=
  loopAux outcome budget 0

/-- Whether main prints the exhaustion message
(src/court_booker.py line 256-257): exactly when the loop left success
False. -/
def failureMessagePrinted (success : Bool) : Bool := !success

/-- Target that main passes to wait_until
(src/court_booker.py lines 240-244). -/
inductive WaitTarget where
  | nowPlusSeconds (n : Nat)
  | bookingTime
  deriving DecidableEq

/-- Headless flag passed to the browser launch
(src/court_booker.py line 226). -/
def headlessFlag (devMode : Bool) : Bool := !devMode

/-- Wait target chosen by main (src/court_booker.py lines 240-244): in dev
mode, now plus 6 seconds regardless of the booking target; otherwise the
booking time itself. -/
def mainWaitTarget (devMode : Bool) : WaitTarget :=
  if devMode then .nowPlusSeconds 6 else .bookingTime

/-- Post-loop sleep of main (src/court_booker.py lines 259-262): 600
seconds with the browser kept open in dev mode, none otherwise. -/
def postLoopSleepSeconds (devMode : Bool) : Option Nat :=
  if devMode then some 600 else none

/-- Sleep slices of wait_until (src/court_booker.py lines 100-103): while
the remaining time s is positive, sleep min s 5 and subtract it. Fuel
bounds the recursion; waitUntilSleeps supplies enough of it. -/
def sliceGo : Nat → ℚ → List ℚ
  | 0, _ => []
  | fuel + 1, s => if 0 < s then min s 5 :: sliceGo fuel (s - min s 5) else []

/-- Sequence of sleep durations wait_until performs when the remaining
time until the target, computed once at entry, is s seconds
(src/court_booker.py lines 95-103). -/
def waitUntilSleeps (s : ℚ) : List ℚ :=
  sliceGo ((Int.ceil (s / 5)).toNat + 1) s

/-- Sample booking target 2025-03-05 at 14:05 (2:05 PM). -/
def sampleDT : BookingDT := ⟨2025, 3, 5, 14, 5⟩

/-- Page state where everything is present and the modal detaches after
save: the clean confirmed run. Fields in declaration order of PageEnv. -/
def confirmedEnv : PageEnv :=
  ⟨true, true, true, true, true, true, true, 3, true, true, true, true⟩

/-- Page state identical to confirmedEnv except the modal never detaches
after save: the uncertain outcome. -/
def uncertainEnv : PageEnv :=
  ⟨true, true, true, true, true, true, true, 3, true, true, true, false⟩

/-- Page state where the slot is found and clicked but the booking modal
never appears within its 5-second timeout. -/
def modalMissingEnv : PageEnv :=
  ⟨true, true, true, false, true, true, true, 3, true, true, true, true⟩

/-- Page state with the calendar toggle button absent. -/
def toggleMissingEnv : PageEnv :=
  ⟨false, true, true, true, true, true, true, 3, true, true, true, true⟩

/-- Page state with the target date cell absent from the calendar popup. -/
def dateMissingEnv : PageEnv :=
  ⟨true, false, true, true, true, true, true, 3, true, true, true, true⟩

/-- Page state with the slot button not yet available. -/
def slotMissingEnv : PageEnv :=
  ⟨true, true, false, true, true, true, true, 3, true, true, true, true⟩

/-- Page state with the ReservationTypeId input absent from the modal. -/
def rtInputMissingEnv : PageEnv :=
  ⟨true, true, true, true, false, true, true, 3, true, true, true, true⟩

/-- Page state where the dropdown option list never appears in time. -/
def optionsTimeoutEnv : PageEnv :=
  ⟨true, true, true, true, true, true, false, 0, true, true, true, true⟩

/-- Page state where the dropdown option list appears but is empty. -/
def noOptionsEnv : PageEnv :=
  ⟨true, true, true, true, true, true, true, 0, true, true, true, true⟩

/-- Page state with the save button absent from the modal. -/
def saveMissingEnv : PageEnv :=
  ⟨true, true, true, true, true, true, true, 3, true, true, false, true⟩

/-- Page state where the visible dropdown button button.k-select is absent
from the modal while the ReservationTypeId input is present. -/
def noDropdownButtonEnv : PageEnv :=
  ⟨true, true, true, true, true, false, true, 3, true, true, true, true⟩

/-- Sum of the sleep slices equals the positive part of the remaining time,
provided the fuel covers the remaining time. -/
theorem sliceGo_sum : ∀ (n : Nat) (s : ℚ), s ≤ 5 * n → (sliceGo n s).sum = max s 0 := by
  intro n
  induction n with
  | zero =>
    intro s hs
    norm_num at hs
    simp [sliceGo, max_eq_right hs]
  | succ n ih =>
    intro s hs
    by_cases h : 0 < s
    · have hmin : min s 5 ≤ s := min_le_left s 5
      have hrem : s - min s 5 ≤ 5 * n := by
        rcases le_total s 5 with h5 | h5
        · rw [min_eq_left h5]
          simp
        · rw [min_eq_right h5]
          push_cast at hs ⊢
          linarith
      rw [sliceGo, if_pos h, List.sum_cons, ih _ hrem,
          max_eq_left (by linarith : (0:ℚ) ≤ s - min s 5), max_eq_left h.le]
      ring
    · rw [sliceGo, if_neg h]
      simp [max_eq_right (le_of_not_lt h)]

/-- Every sleep slice is positive and at most 5 seconds. -/
theorem sliceGo_mem : ∀ (n : Nat) (s d : ℚ), d ∈ sliceGo n s → 0 < d ∧ d ≤ 5 := by
  intro n
  induction n with
  | zero =>
    intro s d hd
    simp [sliceGo] at hd
  | succ n ih =>
    intro s d hd
    by_cases h : 0 < s
    · rw [sliceGo, if_pos h] at hd
      rcases List.mem_cons.mp hd with h1 | h1
      · subst h1
        exact ⟨lt_min h (by norm_num), min_le_right s 5⟩
      · exact ih _ _ h1
    · rw [sliceGo, if_neg h] at hd
      simp at hd

/-- Fuel chosen by waitUntilSleeps covers the remaining time. -/
theorem waitFuel_le (s : ℚ) : s ≤ 5 * (((Int.ceil (s / 5)).toNat : ℚ) + 1) := by
  have h2 : ((Int.ceil (s / 5) : ℤ) : ℚ) ≤ ((Int.ceil (s / 5)).toNat : ℚ) := by
    exact_mod_cast Int.self_le_toNat _
  have h1 : s / 5 ≤ ((Int.ceil (s / 5) : ℤ) : ℚ) := Int.le_ceil _
  have h3 : s / 5 ≤ ((Int.ceil (s / 5)).toNat : ℚ) := le_trans h1 h2
  linarith

/-- When every attempt fails, the loop spends its whole budget: one attempt
and one sleep per unit of fuel, ending without success. -/
theorem loopAux_allFail (outcome : Nat → AttemptOutcome)
    (h : ∀ j, outcome j = .result false) :
    ∀ (fuel i : Nat), loopAux outcome fuel i = .ok (false, fuel, fuel) := by
  intro fuel
  induction fuel with
  | zero =>
    intro i
    rfl
  | succ n ih =>
    intro i
    simp only [loopAux, h i]
    rw [ih (i + 1)]

/-- When the first success is at relative index k inside the budget, the
loop performs k + 1 attempts and k sleeps and stops with success. -/
theorem loopAux_firstSuccess (outcome : Nat → AttemptOutcome) :
    ∀ (k fuel i : Nat), k < fuel →
      (∀ j, j < k → outcome (i + j) = .result false) →
      outcome (i + k) = .result true →
      loopAux outcome fuel i = .ok (true, k + 1, k) := by
  intro k
  induction k with
  | zero =>
    intro fuel i hk hf hs
    obtain ⟨n, rfl⟩ : ∃ n, fuel = n + 1 := ⟨fuel - 1, by omega⟩
    have hs0 : outcome i = .result true := by simpa using hs
    simp only [loopAux, hs0]
  | succ k ih =>
    intro fuel i hk hf hs
    obtain ⟨n, rfl⟩ : ∃ n, fuel = n + 1 := ⟨fuel - 1, by omega⟩
    have h0 : outcome i = .result false := by simpa using hf 0 (Nat.succ_pos k)
    have hf1 : ∀ j, j < k → outcome (i + 1 + j) = .result false := by
      intro j hj
      have hx := hf (j + 1) (by omega)
      rwa [show i + (j + 1) = i + 1 + j by omega] at hx
    have hs1 : outcome (i + 1 + k) = .result true := by
      rwa [show i + (k + 1) = i + 1 + k by omega] at hs
    simp only [loopAux, h0]
    rw [ih n (i + 1) (by omega) hf1 hs1]

/-- C1: when every booking attempt fails, the retry loop performs exactly
max_retries = 24 attempts, never fewer and never more, with one 5-second
sleep after each failed attempt, ends without success, and main then
prints the exhaustion message instead of reporting success. -/
theorem loop_exhausts_after_24 (outcome : Nat → AttemptOutcome)
    (h : ∀ j, outcome j = .result false) :
    runBookingLoop outcome max_retries = .ok (false, 24, 24) ∧
    retryDelaySeconds = 5 ∧ failureMessagePrinted false = true :=
  ⟨loopAux_allFail outcome h 24 0, rfl, rfl⟩

/-- Witness for C1 at the constant failing outcome. -/
theorem loop_exhausts_after_24_witness :
    runBookingLoop (fun _ => .result false) max_retries = .ok (false, 24, 24) ∧
    retryDelaySeconds = 5 ∧ failureMessagePrinted false = true :=
  loop_exhausts_after_24 (fun _ => .result false) (fun _ => rfl)

/-- C2: when attempt k (0-indexed, k < max_retries) is the first to return
True, the loop stops right there with success after k + 1 attempts and
only the k sleeps that followed the earlier failures: no further attempt
and no further sleep happen. -/
theorem loop_stops_at_first_success (outcome : Nat → AttemptOutcome) (k : Nat)
    (hk : k < max_retries)
    (hf : ∀ j, j < k → outcome j = .result false)
    (hs : outcome k = .result true) :
    runBookingLoop outcome max_retries = .ok (true, k + 1, k) := by
  have hf0 : ∀ j, j < k → outcome (0 + j) = .result false := by
    intro j hj
    simpa using hf j hj
  have hs0 : outcome (0 + k) = .result true := by simpa using hs
  exact loopAux_firstSuccess outcome k max_retries 0 hk hf0 hs0

/-- Witness for C2: success on the third attempt (index 2) stops the loop
with 3 attempts and 2 sleeps. -/
theorem loop_stops_at_first_success_witness :
    runBookingLoop (fun j => if j < 2 then .result false else .result true)
      max_retries = .ok (true, 3, 2) :=
  loop_stops_at_first_success (fun j => if j < 2 then .result false else .result true)
    2 (by decide) (fun j hj => by simp [hj]) (by decide)

/-- C3 (code defect): when the slot is found and clicked but the booking
modal does not appear within its timeout, attempt_booking does not absorb
the failure as a False result: the unguarded wait raises, the exception
escapes the attempt, and the retry loop aborts the program instead of
retrying. -/
theorem modal_timeout_crash :
    (attempt_booking modalMissingEnv sampleDT).1 = .crashed ∧
    (attempt_booking modalMissingEnv sampleDT).1 ≠ .result false ∧
    runBookingLoop (fun _ => (attempt_booking modalMissingEnv sampleDT).1)
      max_retries = .error () :=
  ⟨rfl, by decide, rfl⟩

/-- C4: wait_until performs no sleep at all when the remaining time s is
zero or negative (target in the past or equal to now), and otherwise
sleeps slices that are each positive and at most 5 seconds and that sum to
exactly the remaining time, so it returns exactly when the wall clock
reaches the target and never early. -/
theorem wait_until_behavior (s : ℚ) :
    (s ≤ 0 → waitUntilSleeps s = []) ∧
    (waitUntilSleeps s).sum = max s 0 ∧
    ∀ d, d ∈ waitUntilSleeps s → 0 < d ∧ d ≤ 5 := by
  refine ⟨?_, ?_, ?_⟩
  · intro hs
    rw [waitUntilSleeps, sliceGo, if_neg (not_lt.mpr hs)]
  · apply sliceGo_sum
    have h := waitFuel_le s
    push_cast
    linarith
  · intro d hd
    exact sliceGo_mem _ _ _ hd

/-- Witness for C4 at remaining times 0 and 12 and at the slice 5 of the
12-second wait. -/
theorem wait_until_behavior_witness :
    waitUntilSleeps 0 = [] ∧
    (waitUntilSleeps 12).sum = max 12 0 ∧
    (0 < (5:ℚ) ∧ (5:ℚ) ≤ 5) :=
  ⟨(wait_until_behavior 0).1 le_rfl, (wait_until_behavior 12).2.1,
   (wait_until_behavior 12).2.2 5 (by decide)⟩

/-- C5: when the form is submitted but the modal does not detach within
its timeout, the attempt returns True, so the loop stops at once as on a
success, and the trace carries the uncertain message and not the confirmed
one, while a detaching modal carries the confirmed message; the uncertain
case is never surfaced as a failure. -/
theorem uncertain_outcome_distinct :
    (attempt_booking uncertainEnv sampleDT).1 = .result true ∧
    Ev.modalDidNotClose ∈ (attempt_booking uncertainEnv sampleDT).2 ∧
    Ev.modalClosedConfirmed ∉ (attempt_booking uncertainEnv sampleDT).2 ∧
    Ev.modalClosedConfirmed ∈ (attempt_booking confirmedEnv sampleDT).2 ∧
    Ev.modalDidNotClose ∉ (attempt_booking confirmedEnv sampleDT).2 ∧
    runBookingLoop (fun _ => (attempt_booking uncertainEnv sampleDT).1)
      max_retries = .ok (true, 1, 0) :=
  ⟨rfl, by decide, by decide, by decide, by decide, rfl⟩

/-- C6: for the target date 2025-03-05 the locator builds exactly the
label Wednesday, March 5, 2025 and queries the calendar popup with exactly
the date-cell selector carrying that label. -/
theorem date_label_exact :
    fullDateStr sampleDT = "Wednesday, March 5, 2025" ∧
    dateLinkSelector (fullDateStr sampleDT)
      = "a.k-link[title=\"Wednesday, March 5, 2025\"]" ∧
    Ev.querySelector (dateLinkSelector "Wednesday, March 5, 2025")
      ∈ (attempt_booking confirmedEnv sampleDT).2 :=
  ⟨by decide, by decide, by decide⟩

/-- C7: for the target time 2:05 PM the locator builds exactly the slot
label 2:05 PM, hour unpadded and minutes zero-padded with an AM or PM
suffix, and queries the slot button with exactly that label. -/
theorem time_label_exact :
    timeStr sampleDT = "2:05 PM" ∧
    slotButtonSelector (timeStr sampleDT)
      = "button:has-text(\"2:05 PM\")" ∧
    Ev.querySelector (slotButtonSelector "2:05 PM")
      ∈ (attempt_booking confirmedEnv sampleDT).2 :=
  ⟨by decide, by decide, by decide⟩

/-- C8 (code defect): when the visible reservation-type dropdown button is
absent, the attempt never reaches the select_option fallback of lines
180-182: evaluate_handle hands back a truthy JSHandle wrapping null, the
branch at line 163 is taken anyway, the click on the null handle raises,
and the uncaught exception crashes the attempt and aborts the retry loop;
the fallback action appears nowhere in the trace and submission never
happens. -/
theorem fallback_unreachable_crash :
    (attempt_booking noDropdownButtonEnv sampleDT).1 = .crashed ∧
    Ev.fallbackSelectOption "#ReservationTypeId" "1"
      ∉ (attempt_booking noDropdownButtonEnv sampleDT).2 ∧
    Ev.clickSave ∉ (attempt_booking noDropdownButtonEnv sampleDT).2 ∧
    runBookingLoop (fun _ => (attempt_booking noDropdownButtonEnv sampleDT).1)
      max_retries = .error () :=
  ⟨rfl, by decide, by decide, rfl⟩

/-- C9: with DEV_MODE true, as the source ships, main waits for now plus 6
seconds instead of the booking time whatever the target is, launches the
browser headful, and sleeps 600 seconds after the loop to keep the browser
open. -/
theorem dev_mode_short_wait :
    DEV_MODE = true ∧
    mainWaitTarget DEV_MODE = .nowPlusSeconds 6 ∧
    headlessFlag DEV_MODE = false ∧
    postLoopSleepSeconds DEV_MODE = some 600 :=
  ⟨rfl, rfl, rfl, rfl⟩

/-- C10: attempt_booking yields a plain Bool: each of the six checked
failure modes returns the same value False, and the uncertain submission
returns the same True as the confirmed one, so the caller cannot tell the
failure reasons apart, nor confirmed from uncertain success, from the
value alone. -/
theorem attempt_result_two_valued :
    (attempt_booking confirmedEnv sampleDT).1 = .result true ∧
    (attempt_booking uncertainEnv sampleDT).1
      = (attempt_booking confirmedEnv sampleDT).1 ∧
    (attempt_booking toggleMissingEnv sampleDT).1 = .result false ∧
    (attempt_booking dateMissingEnv sampleDT).1 = .result false ∧
    (attempt_booking slotMissingEnv sampleDT).1 = .result false ∧
    (attempt_booking rtInputMissingEnv sampleDT).1 = .result false ∧
    (attempt_booking optionsTimeoutEnv sampleDT).1 = .result false ∧
    (attempt_booking noOptionsEnv sampleDT).1 = .result false ∧
    (attempt_booking saveMissingEnv sampleDT).1 = .result false :=
  ⟨rfl, rfl, rfl, rfl, rfl, rfl, rfl, rfl, rfl⟩

end CourtBooker
